import Mathlib

/-!
Verification of the Food-journals application's persistence and CRUD logic.

The development shallowly embeds the JavaScript source:
  * `components/database/database.js` (the persistence gateway:
    `initDatabase`, `executeSql`, the two CREATE TABLE schemas);
  * `components/auth/authScreen.js` (`validateInputs`, `handleAuth`);
  * the home screen (`loadJournals`, `saveJournal`, `resetForm`,
    `filteredJournals`, the category picker state).

SQLite tables are embedded as Lean lists of row structures kept in table
(rowid) order; AUTOINCREMENT is an explicit next-identifier counter.
-/

/-! ## Data model

Row shapes follow the CREATE TABLE statements of database.js:
`users (id INTEGER PRIMARY KEY AUTOINCREMENT, email TEXT UNIQUE, password TEXT)`
and `journals (id, userId, image, description, date, category)`. -/

structure UserRow where
  id : Nat
  email : String
  password : String
deriving DecidableEq, Repr

structure JournalRow where
  id : Nat
  userId : Nat
  image : String
  description : String
  date : String
  category : String
deriving DecidableEq, Repr

/-- The on-device database: both tables in rowid order, together with the
next AUTOINCREMENT identifier of each table. -/
structure DB where
  users : List UserRow
  journals : List JournalRow
  nextUserId : Nat
  nextJournalId : Nat
deriving DecidableEq, Repr

/-! ## Schema metadata (database.js CREATE TABLE statements) -/

structure ColumnDef where
  name : String
  sqlType : String
  constraints : List String
deriving DecidableEq, Repr

/-- Columns of `CREATE TABLE IF NOT EXISTS users (id INTEGER PRIMARY KEY
AUTOINCREMENT, email TEXT UNIQUE, password TEXT)` in database.js. -/
def usersTableColumns : List ColumnDef :=
  [⟨"id", "INTEGER", ["PRIMARY KEY", "AUTOINCREMENT"]⟩,
   ⟨"email", "TEXT", ["UNIQUE"]⟩,
   ⟨"password", "TEXT", []⟩]

/-- Columns of `CREATE TABLE IF NOT EXISTS journals (id INTEGER PRIMARY KEY
AUTOINCREMENT, userId INTEGER, image TEXT, description TEXT, date TEXT,
category TEXT, FOREIGN KEY(userId) REFERENCES users(id))` in database.js. -/
def journalsTableColumns : List ColumnDef :=
  [⟨"id", "INTEGER", ["PRIMARY KEY", "AUTOINCREMENT"]⟩,
   ⟨"userId", "INTEGER", []⟩,
   ⟨"image", "TEXT", []⟩,
   ⟨"description", "TEXT", []⟩,
   ⟨"date", "TEXT", []⟩,
   ⟨"category", "TEXT", []⟩]

/-- Whether the named column of a table schema carries the given
column constraint. -/
def columnHasConstraint (cols : List ColumnDef) (colName c : String) : Bool :=
  cols.any (fun col => col.name == colName && col.constraints.contains c)

/-! ## JavaScript string primitives

The JavaScript string methods the source uses, embedded as character-list
computations so that every definition evaluates inside the kernel. -/

/-- `String.prototype.trim()`: strips leading and trailing whitespace. -/
def jsTrim (s : String) : String :=
  ⟨((s.data.dropWhile Char.isWhitespace).reverse.dropWhile Char.isWhitespace).reverse⟩

/-- `String.prototype.toUpperCase()` on the ASCII queries the app issues. -/
def jsToUpper (s : String) : String := ⟨s.data.map Char.toUpper⟩

/-- `String.prototype.startsWith(p)`. -/
def strStartsWith (s p : String) : Bool := p.data.isPrefixOf s.data

/-! ## Authentication flow (authScreen.js) -/

/-- A character the email regex class `[^\s@]` accepts. -/
def isEmailChar (c : Char) : Bool := !c.isWhitespace && c ≠ '@'

/-- The domain part of the regex, `[^\s@]+\.[^\s@]+`: nonempty, all
characters in the class, and a dot occurs that has at least one class
character on each side. -/
def emailDomainOk (s : List Char) : Bool :=
  decide (s ≠ []) && s.all isEmailChar && ((s.drop 1).dropLast.contains '.')

/-- The test `/^[^\s@]+@[^\s@]+\.[^\s@]+$/.test(email)` of validateInputs:
exactly one at-sign, a nonempty class-only local part, and a matching
domain part. -/
def validEmail (email : String) : Bool :=
  match email.toList.splitOn '@' with
  | [a, b] => decide (a ≠ []) && a.all isEmailChar && emailDomainOk b
  | _ => false

/-- `validateInputs` of authScreen.js: `none` when the inputs pass, else the
alert message of the first failing check. -/
def validateInputs (email password : String) : Option String :=
  if jsTrim email = "" || jsTrim password = "" then some "Please fill in all fields"
  else if !(validEmail email) then some "Please enter a valid email address"
  else if password.length < 6 then some "Password must be at least 6 characters"
  else none

/-- Outcome of `handleAuth`: the navigation or alert the flow ends in. -/
inductive AuthOutcome where
  | validationFailed (msg : String)
  | success (userId : Nat)
  | loginFailed (msg : String)
  | registerFailed (msg : String)
  | unexpectedError (msg : String)
deriving DecidableEq, Repr

/-- `handleAuth` of authScreen.js over the embedded database.  The two
SELECT queries become filters of the users table in rowid order; the
INSERT appends a row carrying the next AUTOINCREMENT identifier.
`users[0]` on an empty result would throw in JavaScript and be caught by
the surrounding handler; that branch is `unexpectedError`. -/
def handleAuth (isLogin : Bool) (db : DB) (email password : String) :
    DB × AuthOutcome :=
  match validateInputs email password with
  | some msg => (db, .validationFailed msg)
  | none =>
    if isLogin then
      match db.users.filter (fun u => u.email == email && u.password == password) with
      | u :: _ => (db, .success u.id)
      | [] => (db, .loginFailed "Invalid email or password")
    else
      if 0 < (db.users.filter (fun u => u.email == email)).length then
        (db, .registerFailed "Email already exists")
      else
        let newRow : UserRow := ⟨db.nextUserId, email, password⟩
        let db2 : DB := { db with users := db.users ++ [newRow],
                                  nextUserId := db.nextUserId + 1 }
        match db2.users.filter (fun u => u.email == email) with
        | u :: _ => (db2, .success u.id)
        | [] => (db2, .unexpectedError "An unexpected error occurred. Please try again.")

/-! ## Journal management flow (home screen) -/

/-- The options of both category pickers of the home screen. -/
def categories : List String := ["All", "Breakfast", "Lunch", "Dinner", "Snacks"]

/-- SQLite's default BINARY collation on the TEXT dates (the app stores
ASCII ISO-8601 strings): lexicographic comparison, character by
character. -/
def collLe : List Char → List Char → Bool
  | [], _ => true
  | _ :: _, [] => false
  | a :: as, b :: bs =>
    if a.toNat = b.toNat then collLe as bs
    else decide (a.toNat < b.toNat)

theorem collLe_total : ∀ a b : List Char, collLe a b = true ∨ collLe b a = true
  | [], _ => Or.inl rfl
  | _ :: _, [] => Or.inr rfl
  | a :: as, b :: bs => by
    simp only [collLe]
    by_cases h : a.toNat = b.toNat
    · rw [if_pos h, if_pos h.symm]
      exact collLe_total as bs
    · rw [if_neg h, if_neg (fun hc => h hc.symm), decide_eq_true_eq, decide_eq_true_eq]
      omega

theorem collLe_trans : ∀ a b c : List Char,
    collLe a b = true → collLe b c = true → collLe a c = true
  | [], _, _, _, _ => rfl
  | _ :: _, [], _, hab, _ => by simp [collLe] at hab
  | _ :: _, _ :: _, [], _, hbc => by simp [collLe] at hbc
  | a :: as, b :: bs, c :: cs, hab, hbc => by
    simp only [collLe] at hab hbc ⊢
    by_cases hab1 : a.toNat = b.toNat <;> by_cases hbc1 : b.toNat = c.toNat
    · rw [if_pos hab1] at hab
      rw [if_pos hbc1] at hbc
      rw [if_pos (hab1.trans hbc1)]
      exact collLe_trans as bs cs hab hbc
    · rw [if_pos hab1] at hab
      rw [if_neg hbc1, decide_eq_true_eq] at hbc
      have hne : ¬a.toNat = c.toNat := by omega
      rw [if_neg hne, decide_eq_true_eq]
      omega
    · rw [if_neg hab1, decide_eq_true_eq] at hab
      rw [if_pos hbc1] at hbc
      have hne : ¬a.toNat = c.toNat := by omega
      rw [if_neg hne, decide_eq_true_eq]
      omega
    · rw [if_neg hab1, decide_eq_true_eq] at hab
      rw [if_neg hbc1, decide_eq_true_eq] at hbc
      have hne : ¬a.toNat = c.toNat := by omega
      rw [if_neg hne, decide_eq_true_eq]
      omega

/-- Sort order of `ORDER BY date DESC`: binary-collation comparison of the
TEXT dates, descending. -/
def dateDesc (a b : JournalRow) : Prop := collLe b.date.data a.date.data = true

instance : DecidableRel dateDesc := fun a b =>
  inferInstanceAs (Decidable (collLe b.date.data a.date.data = true))

instance : IsTotal JournalRow dateDesc :=
  ⟨fun a b => collLe_total b.date.data a.date.data⟩

instance : IsTrans JournalRow dateDesc :=
  ⟨fun _ _ _ hab hbc => collLe_trans _ _ _ hbc hab⟩

/-- `loadJournals` of the home screen:
`SELECT * FROM journals WHERE userId = ? ORDER BY date DESC`. -/
def loadJournals (db : DB) (userId : Nat) : List JournalRow :=
  List.insertionSort dateDesc (db.journals.filter (fun j => j.userId == userId))

/-- `filteredJournals` of the home screen: the category `All` leaves the
fetched list unchanged, any other category keeps exactly the rows whose
category equals it. -/
def filteredJournals (journals : List JournalRow) (category : String) :
    List JournalRow :=
  if category = "All" then journals
  else journals.filter (fun j => j.category == category)

/-- The component state of the home screen that the save/reset/filter logic
reads and writes: the five useState variables image, description, journals,
editingId and category (`isLoading` only gates rendering).  One single
`category` variable backs both the entry-form picker and the list filter. -/
structure HomeState where
  image : Option String
  description : String
  journals : List JournalRow
  editingId : Option Nat
  category : String
deriving DecidableEq, Repr

/-- The useState initial values of the home screen:
`useState(null)`, `useState('')`, `useState([])`, `useState(null)`,
`useState('All')`. -/
def initialHomeState : HomeState := ⟨none, "", [], none, "All"⟩

/-- `resetForm` of the home screen. -/
def resetForm (s : HomeState) : HomeState :=
  { s with image := none, description := "", editingId := none, category := "All" }

/-- JavaScript falsiness of the `image` state (`!image`): null or the empty
string. -/
def jsFalsyStr : Option String → Bool
  | none => true
  | some s => s == ""

/-- The INSERT of `saveJournal`: appends a row carrying the next
AUTOINCREMENT identifier. -/
def insertJournal (db : DB) (userId : Nat) (image description category date : String) :
    DB :=
  { db with
    journals := db.journals ++
      [⟨db.nextJournalId, userId, image, description, date, category⟩],
    nextJournalId := db.nextJournalId + 1 }

/-- The UPDATE of `saveJournal`:
`UPDATE journals SET image = ?, description = ?, category = ? WHERE id = ?`. -/
def updateJournal (db : DB) (eid : Nat) (image description category : String) : DB :=
  { db with
    journals := db.journals.map (fun j =>
      if j.id = eid then
        { j with image := image, description := description, category := category }
      else j) }

/-- The alert `saveJournal` ends in. -/
inductive SaveOutcome where
  | validationError (msg : String)
  | notAuthenticated (msg : String)
  | updated (msg : String)
  | created (msg : String)
deriving DecidableEq, Repr

/-- `saveJournal` of the home screen.  `now` stands for
`new Date().toISOString()`.  On success the screen re-runs `loadJournals`
and then `resetForm`.  (The JavaScript guard `if (editingId)` is modelled
by the `Option`; the falsy identifier 0 is never assigned by
AUTOINCREMENT.) -/
def saveJournal (s : HomeState) (db : DB) (userId : Option Nat) (now : String) :
    HomeState × DB × SaveOutcome :=
  if jsFalsyStr s.image || jsTrim s.description = "" then
    (s, db, .validationError "Please add both an image and description")
  else
    match userId with
    | none => (s, db, .notAuthenticated "User not authenticated")
    | some uid =>
      match s.editingId with
      | some eid =>
        let db2 := updateJournal db eid (s.image.getD "") (jsTrim s.description) s.category
        (resetForm { s with journals := loadJournals db2 uid }, db2,
          .updated "Journal updated successfully")
      | none =>
        let db2 := insertJournal db uid (s.image.getD "") (jsTrim s.description)
          s.category now
        (resetForm { s with journals := loadJournals db2 uid }, db2,
          .created "Journal saved successfully")

/-! ## Persistence gateway (database.js) -/

/-- The observable storage effects of database.js, in order of issue. -/
inductive DbEffect where
  | openDatabase
  | pragmaWAL
  | createUsersTable
  | createJournalsTable
  | getAll (query : String)
  | run (query : String)
deriving DecidableEq, Repr

/-- The expo-sqlite primitives the gateway dispatches to, abstracted over
the store type `σ`, the row type `ρ` and the parameter type `π`:
`openDatabaseAsync` yields `openDb`, `getAllAsync` returns all rows of a
read query, `runAsync` returns the mutated store, the last inserted rowid
and the number of affected rows. -/
structure Backend (σ ρ π : Type) where
  openDb : σ
  getAllAsync : σ → String → List π → List ρ
  runAsync : σ → String → List π → σ × Nat × Nat

/-- The module-level mutable state of database.js: the flag that schema
setup completed, and the connection handle `db` (undefined before the
first open, hence the `Option`). -/
structure GatewayState (σ : Type) where
  isInit : Bool
  db : Option σ
deriving Repr

/-- `initDatabase` of database.js, as a state transformer that also
reports the storage effects it issued: nothing when the flag is already
set, otherwise open, `PRAGMA journal_mode = WAL`, and the two CREATE
TABLE statements, after which the flag is set. -/
def initDatabase (B : Backend σ ρ π) (st : GatewayState σ) :
    GatewayState σ × List DbEffect :=
  if st.isInit then (st, [])
  else (⟨true, some B.openDb⟩,
    [.openDatabase, .pragmaWAL, .createUsersTable, .createJournalsTable])

/-- The query classification of `executeSql`:
`query.trim().toUpperCase().startsWith('SELECT')`. -/
def isSelectQuery (query : String) : Bool :=
  strStartsWith (jsToUpper (jsTrim query)) "SELECT"

/-- What a query execution returns: all rows for a read query, or the
`lastInsertRowId` and `changes` descriptor of `runAsync`. -/
inductive SqlResult (ρ : Type) where
  | rows (rs : List ρ)
  | runResult (lastInsertRowId : Nat) (changes : Nat)
deriving DecidableEq, Repr

/-- `executeSql` of database.js: runs `initDatabase` first when the flag is
unset, then dispatches on `isSelectQuery` to `getAllAsync` or `runAsync`.
Calling a method of an undefined connection would throw in JavaScript;
that (unreachable after a successful `initDatabase`) path yields `none`. -/
def executeSql (B : Backend σ ρ π) (st : GatewayState σ) (query : String)
    (params : List π) : GatewayState σ × List DbEffect × Option (SqlResult ρ) :=
  let p := if st.isInit then (st, ([] : List DbEffect)) else initDatabase B st
  match p.1.db with
  | none => (p.1, p.2, none)
  | some d =>
    if isSelectQuery query then
      (p.1, p.2 ++ [.getAll query], some (.rows (B.getAllAsync d query params)))
    else
      let r := B.runAsync d query params
      ({ p.1 with db := some r.1 }, p.2 ++ [.run query],
        some (.runResult r.2.1 r.2.2))

/-! ## Concrete demonstration inputs

Used by the closed evaluation theorems below; mirrors the scenario of the
specification (`a@b.com` / `secret1`, a breakfast entry for user 1). -/

def demoUser : UserRow := ⟨1, "a@b.com", "secret1"⟩

def demoDB : DB := ⟨[demoUser], [], 2, 1⟩

def demoJournal : JournalRow :=
  ⟨1, 1, "img://1", "Oatmeal", "2024-01-01T00:00:00.000Z", "Breakfast"⟩

def demoDB2 : DB := ⟨[demoUser], [demoJournal], 2, 2⟩

def demoEditState : HomeState := ⟨some "img://9", "Toast", [], some 1, "Snacks"⟩

def demoCreateState : HomeState := ⟨some "img://4", "Pasta", [], none, "All"⟩

def demoBackend : Backend Unit Unit Unit :=
  ⟨(), fun _ _ _ => [], fun _ _ _ => ((), 0, 0)⟩

def demoGateway : GatewayState Unit := ⟨false, none⟩

/-! ## Helper lemmas -/

/-- Rows of a fetched list are exactly the user's rows of the table. -/
theorem mem_loadJournals (db : DB) (uid : Nat) (j : JournalRow) :
    j ∈ loadJournals db uid ↔ j ∈ db.journals ∧ j.userId = uid := by
  unfold loadJournals
  rw [(List.perm_insertionSort dateDesc _).mem_iff, List.mem_filter]
  simp

/-- Filtering on the category `All` is the identity. -/
theorem filteredJournals_All (l : List JournalRow) : filteredJournals l "All" = l := by
  simp [filteredJournals]

/-- Reduction of `saveJournal` in the create case (valid form, no
editing identifier). -/
theorem saveJournal_create (s : HomeState) (db : DB) (uid : Nat) (now : String)
    (himg : jsFalsyStr s.image = false) (hdesc : jsTrim s.description ≠ "")
    (hedit : s.editingId = none) :
    saveJournal s db (some uid) now =
      (⟨none, "", loadJournals
          (insertJournal db uid (s.image.getD "") (jsTrim s.description) s.category now) uid,
        none, "All"⟩,
       insertJournal db uid (s.image.getD "") (jsTrim s.description) s.category now,
       SaveOutcome.created "Journal saved successfully") := by
  unfold saveJournal
  rw [himg, hedit]
  simp [hdesc, resetForm]

/-- Reduction of `saveJournal` in the update case (valid form, editing an
existing identifier). -/
theorem saveJournal_update (s : HomeState) (db : DB) (uid eid : Nat) (now : String)
    (himg : jsFalsyStr s.image = false) (hdesc : jsTrim s.description ≠ "")
    (hedit : s.editingId = some eid) :
    saveJournal s db (some uid) now =
      (⟨none, "", loadJournals
          (updateJournal db eid (s.image.getD "") (jsTrim s.description) s.category) uid,
        none, "All"⟩,
       updateJournal db eid (s.image.getD "") (jsTrim s.description) s.category,
       SaveOutcome.updated "Journal updated successfully") := by
  unfold saveJournal
  rw [himg, hedit]
  simp [hdesc, resetForm]

/-- Reduction of `handleAuth` in LOGIN mode once validation passed. -/
theorem handleAuth_login_eq (db : DB) (email password : String)
    (hv : validateInputs email password = none) :
    handleAuth true db email password =
      match db.users.filter (fun u => u.email == email && u.password == password) with
      | u :: _ => (db, AuthOutcome.success u.id)
      | [] => (db, AuthOutcome.loginFailed "Invalid email or password") := by
  unfold handleAuth
  rw [hv]
  rfl

/-- REGISTER with an already-present email: failure alert, database
unchanged. -/
theorem register_existing_email (db : DB) (email password : String)
    (hv : validateInputs email password = none)
    (hex : ∃ u ∈ db.users, u.email = email) :
    handleAuth false db email password =
      (db, AuthOutcome.registerFailed "Email already exists") := by
  rcases hex with ⟨u, hu, hue⟩
  have hmem : u ∈ db.users.filter (fun u => u.email == email) :=
    List.mem_filter.mpr ⟨hu, by simp [hue]⟩
  have hpos : 0 < (db.users.filter (fun u => u.email == email)).length :=
    List.length_pos.mpr (List.ne_nil_of_mem hmem)
  unfold handleAuth
  rw [hv]
  simp only [Bool.false_eq_true, if_false, if_pos hpos]

/-- REGISTER with a fresh email: the row is inserted with the next
AUTOINCREMENT identifier and the re-query by email yields exactly that
identifier. -/
theorem register_fresh_email (db : DB) (email password : String)
    (hv : validateInputs email password = none)
    (hall : ∀ u ∈ db.users, u.email ≠ email) :
    handleAuth false db email password =
      ({ db with users := db.users ++ [⟨db.nextUserId, email, password⟩],
                 nextUserId := db.nextUserId + 1 },
       AuthOutcome.success db.nextUserId) := by
  have hnil : db.users.filter (fun u => u.email == email) = [] :=
    List.filter_eq_nil_iff.mpr (fun u hu => by simp [hall u hu])
  have hfil2 : (db.users ++ [(⟨db.nextUserId, email, password⟩ : UserRow)]).filter
      (fun u => u.email == email) = [⟨db.nextUserId, email, password⟩] := by
    rw [List.filter_append, hnil]
    simp
  unfold handleAuth
  rw [hv]
  simp only [Bool.false_eq_true, if_false]
  rw [if_neg (by rw [hnil]; simp)]
  simp only [hfil2]

/-! ## Claim theorems -/

/-- Claim C1: for every login attempt that passes local input validation
(and a users table whose emails are unique, as the schema's UNIQUE column
and the registration pre-check maintain), the attempt succeeds if and only
if a users row exists whose email and password both exactly equal the
submitted values, and on success the user identifier handed to the journal
flow equals that row's id; zero matching rows yields the generic
invalid-credentials failure with the database untouched. -/
theorem login_iff_matching_row (db : DB) (email password : String) (uid : Nat)
    (hv : validateInputs email password = none)
    (hnodup : (db.users.map UserRow.email).Nodup) :
    (handleAuth true db email password = (db, AuthOutcome.success uid) ↔
      ∃ u ∈ db.users, u.email = email ∧ u.password = password ∧ u.id = uid) ∧
    ((∀ u ∈ db.users, ¬(u.email = email ∧ u.password = password)) →
      handleAuth true db email password =
        (db, AuthOutcome.loginFailed "Invalid email or password")) := by
  have hred := handleAuth_login_eq db email password hv
  cases hfil : db.users.filter (fun u => u.email == email && u.password == password) with
  | nil =>
    rw [hfil] at hred
    have hred2 : handleAuth true db email password =
        (db, AuthOutcome.loginFailed "Invalid email or password") := hred
    refine ⟨?_, fun _ => hred2⟩
    rw [hred2]
    constructor
    · intro heq
      have h2 := (Prod.mk.injEq _ _ _ _ ▸ heq)
      simp at h2
    · rintro ⟨u, hu, he, hp, hi⟩
      have hmem : u ∈ db.users.filter
          (fun u => u.email == email && u.password == password) :=
        List.mem_filter.mpr ⟨hu, by simp [he, hp]⟩
      rw [hfil] at hmem
      cases hmem
  | cons u us =>
    rw [hfil] at hred
    have hred2 : handleAuth true db email password = (db, AuthOutcome.success u.id) := hred
    have humem : u ∈ db.users.filter
        (fun u => u.email == email && u.password == password) := by
      rw [hfil]
      exact List.mem_cons_self u us
    have hu := List.mem_filter.mp humem
    have hue : u.email = email := by
      have h2 := hu.2
      simp only [Bool.and_eq_true, beq_iff_eq] at h2
      exact h2.1
    have hup : u.password = password := by
      have h2 := hu.2
      simp only [Bool.and_eq_true, beq_iff_eq] at h2
      exact h2.2
    refine ⟨?_, fun hall => absurd ⟨hue, hup⟩ (hall u hu.1)⟩
    rw [hred2]
    constructor
    · intro heq
      have h2 : AuthOutcome.success u.id = AuthOutcome.success uid :=
        congrArg Prod.snd heq
      have hid : u.id = uid := by
        injection h2
      exact ⟨u, hu.1, hue, hup, hid⟩
    · rintro ⟨v, hv2, hve, hvp, hvi⟩
      have huv : u = v :=
        List.inj_on_of_nodup_map hnodup hu.1 hv2 (by rw [hue, hve])
      have hid : u.id = uid := by rw [huv, hvi]
      rw [hid]

/-- Claim C1, evaluated: the demonstration database holds exactly the row
`⟨1, a@b.com, secret1⟩`, so that login yields identifier 1. -/
theorem login_iff_matching_row_witness :
    (handleAuth true demoDB "a@b.com" "secret1" = (demoDB, AuthOutcome.success 1) ↔
      ∃ u ∈ demoDB.users, u.email = "a@b.com" ∧ u.password = "secret1" ∧ u.id = 1) ∧
    ((∀ u ∈ demoDB.users, ¬(u.email = "a@b.com" ∧ u.password = "secret1")) →
      handleAuth true demoDB "a@b.com" "secret1" =
        (demoDB, AuthOutcome.loginFailed "Invalid email or password")) :=
  login_iff_matching_row demoDB "a@b.com" "secret1" 1 (by decide) (by decide)

/-- Claim C2: a registration attempt (passing local validation) whose email
already has a row fails with the email-already-exists message, performs no
insert (the database is unchanged, so the row count for that email stays
1 when it was 1); with no existing row for the email, a users row with the
given email and password is appended, and the flow's re-query by email
yields the assigned identifier. -/
theorem register_spec (db : DB) (email password : String)
    (hv : validateInputs email password = none) :
    ((∃ u ∈ db.users, u.email = email) →
      handleAuth false db email password =
        (db, AuthOutcome.registerFailed "Email already exists") ∧
      ((db.users.filter (fun u => u.email == email)).length = 1 →
        ((handleAuth false db email password).1.users.filter
          (fun u => u.email == email)).length = 1)) ∧
    ((∀ u ∈ db.users, u.email ≠ email) →
      handleAuth false db email password =
        ({ db with users := db.users ++ [⟨db.nextUserId, email, password⟩],
                   nextUserId := db.nextUserId + 1 },
         AuthOutcome.success db.nextUserId)) := by
  constructor
  · intro hex
    have heq := register_existing_email db email password hv hex
    refine ⟨heq, fun hlen => ?_⟩
    rw [heq]
    exact hlen
  · exact register_fresh_email db email password hv

/-- Claim C2, evaluated: registering `a@b.com` again fails and keeps one
row; registering a fresh email inserts identifier 2. -/
theorem register_spec_witness :
    ((∃ u ∈ demoDB.users, u.email = "a@b.com") →
      handleAuth false demoDB "a@b.com" "other12" =
        (demoDB, AuthOutcome.registerFailed "Email already exists") ∧
      ((demoDB.users.filter (fun u => u.email == "a@b.com")).length = 1 →
        ((handleAuth false demoDB "a@b.com" "other12").1.users.filter
          (fun u => u.email == "a@b.com")).length = 1)) ∧
    ((∀ u ∈ demoDB.users, u.email ≠ "a@b.com") →
      handleAuth false demoDB "a@b.com" "other12" =
        ({ demoDB with users := demoDB.users ++ [⟨demoDB.nextUserId, "a@b.com", "other12"⟩],
                       nextUserId := demoDB.nextUserId + 1 },
         AuthOutcome.success demoDB.nextUserId)) :=
  register_spec demoDB "a@b.com" "other12" (by decide)

/-- Claim C3: the List operation returns exactly the journals rows whose
userId equals the given identifier, ordered by date descending; a filter
category other than `All` keeps exactly the rows of that category and is a
subset by identifier of the unfiltered list, while the filter `All`
returns the list unchanged. -/
theorem loadJournals_filter_spec (db : DB) (uid : Nat) (cat : String) :
    (loadJournals db uid).Sorted dateDesc ∧
    (∀ j, j ∈ loadJournals db uid ↔ j ∈ db.journals ∧ j.userId = uid) ∧
    (cat ≠ "All" → ∀ j, j ∈ filteredJournals (loadJournals db uid) cat ↔
      j ∈ loadJournals db uid ∧ j.category = cat) ∧
    (∀ j ∈ filteredJournals (loadJournals db uid) cat,
      j.id ∈ (loadJournals db uid).map JournalRow.id) ∧
    filteredJournals (loadJournals db uid) "All" = loadJournals db uid := by
  refine ⟨List.sorted_insertionSort dateDesc _, fun j => mem_loadJournals db uid j,
    ?_, ?_, filteredJournals_All _⟩
  · intro hcat j
    unfold filteredJournals
    rw [if_neg hcat, List.mem_filter]
    simp
  · intro j hj
    unfold filteredJournals at hj
    by_cases hcat : cat = "All"
    · rw [if_pos hcat] at hj
      exact List.mem_map_of_mem JournalRow.id hj
    · rw [if_neg hcat] at hj
      exact List.mem_map_of_mem JournalRow.id (List.mem_filter.mp hj).1

/-- Claim C4: updating an existing entry (valid form, editing identifier
set) changes only the image, description and category of the rows carrying
that identifier: the table keeps its length, rows with other identifiers
are untouched in both directions, the targeted row keeps its id, userId
and date while receiving the form's image, trimmed description and
category, and the refreshed list handed back to the screen contains the
updated row. -/
theorem saveJournal_update_frame (s : HomeState) (db : DB) (uid eid : Nat) (now : String)
    (himg : jsFalsyStr s.image = false) (hdesc : jsTrim s.description ≠ "")
    (hedit : s.editingId = some eid) :
    ((saveJournal s db (some uid) now).2.1.journals.length = db.journals.length) ∧
    (∀ j ∈ db.journals, j.id ≠ eid → j ∈ (saveJournal s db (some uid) now).2.1.journals) ∧
    (∀ j ∈ (saveJournal s db (some uid) now).2.1.journals, j.id ≠ eid → j ∈ db.journals) ∧
    (∀ j ∈ db.journals, j.id = eid →
      { j with image := s.image.getD "", description := jsTrim s.description,
               category := s.category } ∈ (saveJournal s db (some uid) now).2.1.journals) ∧
    (∀ j ∈ db.journals, j.id = eid → j.userId = uid →
      { j with image := s.image.getD "", description := jsTrim s.description,
               category := s.category } ∈ (saveJournal s db (some uid) now).1.journals) := by
  rw [saveJournal_update s db uid eid now himg hdesc hedit]
  simp only [updateJournal]
  refine ⟨by simp, ?_, ?_, ?_, ?_⟩
  · intro j hj hne
    have hmap := List.mem_map_of_mem
      (fun j => if j.id = eid then
        { j with image := s.image.getD "", description := jsTrim s.description,
                 category := s.category } else j) hj
    simpa only [if_neg hne] using hmap
  · intro j hj hne
    rcases List.mem_map.mp hj with ⟨j0, hj0, heq⟩
    by_cases h0 : j0.id = eid
    · rw [if_pos h0] at heq
      exfalso
      apply hne
      rw [← heq]
      exact h0
    · rw [if_neg h0] at heq
      exact heq ▸ hj0
  · intro j hj hid
    have hmap := List.mem_map_of_mem
      (fun j => if j.id = eid then
        { j with image := s.image.getD "", description := jsTrim s.description,
                 category := s.category } else j) hj
    simpa only [if_pos hid] using hmap
  · intro j hj hid huid
    rw [mem_loadJournals]
    refine ⟨?_, huid⟩
    have hmap := List.mem_map_of_mem
      (fun j => if j.id = eid then
        { j with image := s.image.getD "", description := jsTrim s.description,
                 category := s.category } else j) hj
    simpa only [if_pos hid] using hmap

/-- Claim C4, evaluated: editing entry 1 of the demonstration database. -/
theorem saveJournal_update_frame_witness :
    ((saveJournal demoEditState demoDB2 (some 1) "2024-05-01T00:00:00.000Z").2.1.journals.length =
      demoDB2.journals.length) ∧
    (∀ j ∈ demoDB2.journals, j.id ≠ 1 →
      j ∈ (saveJournal demoEditState demoDB2 (some 1) "2024-05-01T00:00:00.000Z").2.1.journals) ∧
    (∀ j ∈ (saveJournal demoEditState demoDB2 (some 1) "2024-05-01T00:00:00.000Z").2.1.journals,
      j.id ≠ 1 → j ∈ demoDB2.journals) ∧
    (∀ j ∈ demoDB2.journals, j.id = 1 →
      { j with image := demoEditState.image.getD "",
               description := jsTrim demoEditState.description,
               category := demoEditState.category } ∈
        (saveJournal demoEditState demoDB2 (some 1) "2024-05-01T00:00:00.000Z").2.1.journals) ∧
    (∀ j ∈ demoDB2.journals, j.id = 1 → j.userId = 1 →
      { j with image := demoEditState.image.getD "",
               description := jsTrim demoEditState.description,
               category := demoEditState.category } ∈
        (saveJournal demoEditState demoDB2 (some 1) "2024-05-01T00:00:00.000Z").1.journals) :=
  saveJournal_update_frame demoEditState demoDB2 1 1 "2024-05-01T00:00:00.000Z"
    (by decide) (by decide) rfl

/-- Claim C5: a Create or Update attempt with a falsy image reference or a
description that is empty after trimming reports the validation alert and
changes nothing: no storage call, the database and the screen state are
returned untouched. -/
theorem saveJournal_validation_spec (s : HomeState) (db : DB) (userId : Option Nat)
    (now : String) (h : jsFalsyStr s.image = true ∨ jsTrim s.description = "") :
    saveJournal s db userId now =
      (s, db, SaveOutcome.validationError "Please add both an image and description") := by
  unfold saveJournal
  rcases h with h | h
  · rw [h]
    simp
  · rw [h]
    simp

/-- Claim C5, evaluated: the initial form (no image selected) fails
validation and leaves the demonstration database unchanged. -/
theorem saveJournal_validation_spec_witness :
    saveJournal initialHomeState demoDB2 (some 1) "2024-05-01T00:00:00.000Z" =
      (initialHomeState, demoDB2,
       SaveOutcome.validationError "Please add both an image and description") :=
  saveJournal_validation_spec initialHomeState demoDB2 (some 1)
    "2024-05-01T00:00:00.000Z" (Or.inl rfl)

/-- Claim C6: for every backend, well-formed gateway state, query string
and parameter list, `executeSql` returns rows exactly when the query,
after trimming, starts case-insensitively with SELECT; a row-returning
query returns the backend's ordered rows, any other query returns the
descriptor with the last-inserted identifier and the affected-row count,
and when initialization has not completed it is triggered first (the
resulting state is initialized and the effect trace begins with the four
initialization effects). -/
theorem executeSql_dispatch {σ ρ π : Type} (B : Backend σ ρ π) (st : GatewayState σ)
    (query : String) (params : List π)
    (hwf : st.isInit = true → st.db.isSome = true) :
    ((executeSql B st query params).1.isInit = true) ∧
    ((∃ rs, (executeSql B st query params).2.2 = some (SqlResult.rows rs)) ↔
      strStartsWith (jsToUpper (jsTrim query)) "SELECT" = true) ∧
    (∀ d, st.db = some d → st.isInit = true →
      (isSelectQuery query = true →
        (executeSql B st query params).2.2 =
          some (SqlResult.rows (B.getAllAsync d query params)) ∧
        (executeSql B st query params).2.1 = [DbEffect.getAll query]) ∧
      (isSelectQuery query = false →
        (executeSql B st query params).2.2 =
          some (SqlResult.runResult (B.runAsync d query params).2.1
            (B.runAsync d query params).2.2) ∧
        (executeSql B st query params).2.1 = [DbEffect.run query])) ∧
    (st.isInit = false →
      ∃ rest, (executeSql B st query params).2.1 =
        DbEffect.openDatabase :: DbEffect.pragmaWAL :: DbEffect.createUsersTable ::
          DbEffect.createJournalsTable :: rest) := by
  cases hinit : st.isInit
  · cases hq : isSelectQuery query
    · have hq2 : strStartsWith (jsToUpper (jsTrim query)) "SELECT" = false := hq
      refine ⟨?_, ?_, ?_, ?_⟩ <;>
        simp [executeSql, initDatabase, hinit, hq, hq2]
    · have hq2 : strStartsWith (jsToUpper (jsTrim query)) "SELECT" = true := hq
      refine ⟨?_, ?_, ?_, ?_⟩ <;>
        simp [executeSql, initDatabase, hinit, hq, hq2]
  · have hd := hwf hinit
    cases hdb : st.db with
    | none => rw [hdb] at hd; simp at hd
    | some d =>
      cases hq : isSelectQuery query
      · have hq2 : strStartsWith (jsToUpper (jsTrim query)) "SELECT" = false := hq
        refine ⟨?_, ?_, ?_, ?_⟩ <;>
          simp [executeSql, initDatabase, hinit, hdb, hq, hq2]
      · have hq2 : strStartsWith (jsToUpper (jsTrim query)) "SELECT" = true := hq
        refine ⟨?_, ?_, ?_, ?_⟩ <;>
          simp [executeSql, initDatabase, hinit, hdb, hq, hq2]

/-- Claim C6, evaluated: a SELECT issued against the uninitialized gateway
with the trivial backend. -/
theorem executeSql_dispatch_witness :
    ((executeSql demoBackend demoGateway "SELECT id FROM users WHERE email = ?" []).1.isInit = true) ∧
    ((∃ rs, (executeSql demoBackend demoGateway "SELECT id FROM users WHERE email = ?" []).2.2 =
        some (SqlResult.rows rs)) ↔
      strStartsWith (jsToUpper (jsTrim "SELECT id FROM users WHERE email = ?")) "SELECT" = true) ∧
    (∀ d, demoGateway.db = some d → demoGateway.isInit = true →
      (isSelectQuery "SELECT id FROM users WHERE email = ?" = true →
        (executeSql demoBackend demoGateway "SELECT id FROM users WHERE email = ?" []).2.2 =
          some (SqlResult.rows (demoBackend.getAllAsync d "SELECT id FROM users WHERE email = ?" [])) ∧
        (executeSql demoBackend demoGateway "SELECT id FROM users WHERE email = ?" []).2.1 =
          [DbEffect.getAll "SELECT id FROM users WHERE email = ?"]) ∧
      (isSelectQuery "SELECT id FROM users WHERE email = ?" = false →
        (executeSql demoBackend demoGateway "SELECT id FROM users WHERE email = ?" []).2.2 =
          some (SqlResult.runResult
            (demoBackend.runAsync d "SELECT id FROM users WHERE email = ?" []).2.1
            (demoBackend.runAsync d "SELECT id FROM users WHERE email = ?" []).2.2) ∧
        (executeSql demoBackend demoGateway "SELECT id FROM users WHERE email = ?" []).2.1 =
          [DbEffect.run "SELECT id FROM users WHERE email = ?"])) ∧
    (demoGateway.isInit = false →
      ∃ rest, (executeSql demoBackend demoGateway "SELECT id FROM users WHERE email = ?" []).2.1 =
        DbEffect.openDatabase :: DbEffect.pragmaWAL :: DbEffect.createUsersTable ::
          DbEffect.createJournalsTable :: rest) :=
  executeSql_dispatch demoBackend demoGateway "SELECT id FROM users WHERE email = ?" []
    (by decide)

/-- Claim C7: `initDatabase` is idempotent: with the flag unset it opens
the connection, enables write-ahead logging and creates the users and
journals tables, setting the flag; with the flag already set it returns
immediately with no storage effect, so a repeated call after any call
re-opens nothing and re-runs no schema statement. -/
theorem initDatabase_idem {σ ρ π : Type} (B : Backend σ ρ π) (st : GatewayState σ) :
    (st.isInit = false →
      initDatabase B st =
        (⟨true, some B.openDb⟩,
         [DbEffect.openDatabase, DbEffect.pragmaWAL, DbEffect.createUsersTable,
          DbEffect.createJournalsTable])) ∧
    (st.isInit = true → initDatabase B st = (st, [])) ∧
    ((initDatabase B st).1.isInit = true) ∧
    (initDatabase B (initDatabase B st).1 = ((initDatabase B st).1, [])) := by
  unfold initDatabase
  cases h : st.isInit <;> simp [h]

/-- Claim C8, counterexample: the users table schema of database.js does
declare a storage-layer uniqueness constraint on the email column
(`email TEXT UNIQUE`), so uniqueness is not enforced solely by the
registration pre-check. -/
theorem usersTable_email_unique_cex :
    columnHasConstraint usersTableColumns "email" "UNIQUE" = true := by decide

/-- Claim C8 as amended: user email uniqueness is enforced at creation
time by the REGISTER flow's pre-check query (an existing email makes
registration fail before any insert), and additionally the users table's
email column carries a storage-layer UNIQUE constraint. -/
theorem register_precheck_and_constraint (db : DB) (email password : String)
    (hv : validateInputs email password = none)
    (hex : ∃ u ∈ db.users, u.email = email) :
    handleAuth false db email password =
      (db, AuthOutcome.registerFailed "Email already exists") ∧
    columnHasConstraint usersTableColumns "email" "UNIQUE" = true :=
  ⟨register_existing_email db email password hv hex, by decide⟩

/-- Claim C8, evaluated: re-registering `a@b.com` against the
demonstration database. -/
theorem register_precheck_and_constraint_witness :
    handleAuth false demoDB "a@b.com" "other12" =
      (demoDB, AuthOutcome.registerFailed "Email already exists") ∧
    columnHasConstraint usersTableColumns "email" "UNIQUE" = true :=
  register_precheck_and_constraint demoDB "a@b.com" "other12" (by decide)
    ⟨demoUser, by decide, by decide⟩

/-- Claim C9: creating an entry while the category state holds its initial
or post-reset value inserts a row whose category is the string `All`,
which is not one of the four meal categories; such a row matches no filter
category other than `All` and does appear in the unfiltered list. -/
theorem saveJournal_category_All (s : HomeState) (db : DB) (uid : Nat) (now : String)
    (himg : jsFalsyStr s.image = false) (hdesc : jsTrim s.description ≠ "")
    (hedit : s.editingId = none)
    (hcat : s.category = initialHomeState.category ∨ s.category = (resetForm s).category) :
    ((saveJournal s db (some uid) now).2.1.journals =
      db.journals ++ [⟨db.nextJournalId, uid, s.image.getD "", jsTrim s.description, now, "All"⟩]) ∧
    categories.drop 1 = ["Breakfast", "Lunch", "Dinner", "Snacks"] ∧
    "All" ∉ categories.drop 1 ∧
    (∀ cat, cat ≠ "All" →
      (⟨db.nextJournalId, uid, s.image.getD "", jsTrim s.description, now, "All"⟩ : JournalRow) ∉
        filteredJournals (saveJournal s db (some uid) now).2.1.journals cat) ∧
    (⟨db.nextJournalId, uid, s.image.getD "", jsTrim s.description, now, "All"⟩ : JournalRow) ∈
      filteredJournals (saveJournal s db (some uid) now).2.1.journals "All" := by
  have hAll : s.category = "All" := by
    rcases hcat with h | h
    · exact h
    · exact h
  rw [saveJournal_create s db uid now himg hdesc hedit]
  refine ⟨by simp [insertJournal, hAll], rfl, by decide, ?_, ?_⟩
  · intro cat hcat2
    unfold filteredJournals
    rw [if_neg hcat2]
    intro hmem
    have h2 := (List.mem_filter.mp hmem).2
    simp only [beq_iff_eq] at h2
    exact hcat2 h2.symm
  · rw [filteredJournals_All]
    simp [insertJournal, hAll]

/-- Claim C9, evaluated: creating an entry with the form still in its
initial category. -/
theorem saveJournal_category_All_witness :
    ((saveJournal demoCreateState demoDB2 (some 1) "2024-06-01T00:00:00.000Z").2.1.journals =
      demoDB2.journals ++ [⟨demoDB2.nextJournalId, 1, demoCreateState.image.getD "",
        jsTrim demoCreateState.description, "2024-06-01T00:00:00.000Z", "All"⟩]) ∧
    categories.drop 1 = ["Breakfast", "Lunch", "Dinner", "Snacks"] ∧
    "All" ∉ categories.drop 1 ∧
    (∀ cat, cat ≠ "All" →
      (⟨demoDB2.nextJournalId, 1, demoCreateState.image.getD "",
        jsTrim demoCreateState.description, "2024-06-01T00:00:00.000Z", "All"⟩ : JournalRow) ∉
        filteredJournals
          (saveJournal demoCreateState demoDB2 (some 1) "2024-06-01T00:00:00.000Z").2.1.journals cat) ∧
    (⟨demoDB2.nextJournalId, 1, demoCreateState.image.getD "",
      jsTrim demoCreateState.description, "2024-06-01T00:00:00.000Z", "All"⟩ : JournalRow) ∈
      filteredJournals
        (saveJournal demoCreateState demoDB2 (some 1) "2024-06-01T00:00:00.000Z").2.1.journals "All" :=
  saveJournal_category_All demoCreateState demoDB2 1 "2024-06-01T00:00:00.000Z"
    (by decide) (by decide) rfl (Or.inl rfl)

/-- Claim C10: the entry form's category and the list filter are the same
state variable, so after every successful save (create or update) the
screen state produced by `resetForm` has category `All`, the displayed
list is the refreshed list unfiltered, the refreshed list is exactly a new
List of the mutated database, cancellation (`resetForm`) also sets the
shared category to `All`, and on a create the row appended to storage
carries the very category value the filter was showing. -/
theorem saveJournal_resets_shared_category (s : HomeState) (db : DB) (uid : Nat)
    (now : String) (himg : jsFalsyStr s.image = false)
    (hdesc : jsTrim s.description ≠ "") :
    ((saveJournal s db (some uid) now).1.category = "All") ∧
    (filteredJournals (saveJournal s db (some uid) now).1.journals
      (saveJournal s db (some uid) now).1.category =
      (saveJournal s db (some uid) now).1.journals) ∧
    ((saveJournal s db (some uid) now).1.journals =
      loadJournals (saveJournal s db (some uid) now).2.1 uid) ∧
    (∀ t : HomeState, (resetForm t).category = "All") ∧
    (s.editingId = none →
      (saveJournal s db (some uid) now).2.1.journals.getLast? =
        some ⟨db.nextJournalId, uid, s.image.getD "", jsTrim s.description, now, s.category⟩) := by
  cases hedit : s.editingId with
  | none =>
    rw [saveJournal_create s db uid now himg hdesc hedit]
    refine ⟨rfl, filteredJournals_All _, rfl, fun t => rfl, fun _ => ?_⟩
    simp [insertJournal, List.getLast?_concat]
  | some eid =>
    rw [saveJournal_update s db uid eid now himg hdesc hedit]
    refine ⟨rfl, filteredJournals_All _, rfl, fun t => rfl, fun h => ?_⟩
    exact absurd h (by simp)

/-- Claim C10, evaluated: saving a new entry resets the shared category
and shows the refreshed list unfiltered. -/
theorem saveJournal_resets_shared_category_witness :
    ((saveJournal demoCreateState demoDB2 (some 1) "2024-06-01T00:00:00.000Z").1.category = "All") ∧
    (filteredJournals (saveJournal demoCreateState demoDB2 (some 1) "2024-06-01T00:00:00.000Z").1.journals
      (saveJournal demoCreateState demoDB2 (some 1) "2024-06-01T00:00:00.000Z").1.category =
      (saveJournal demoCreateState demoDB2 (some 1) "2024-06-01T00:00:00.000Z").1.journals) ∧
    ((saveJournal demoCreateState demoDB2 (some 1) "2024-06-01T00:00:00.000Z").1.journals =
      loadJournals (saveJournal demoCreateState demoDB2 (some 1) "2024-06-01T00:00:00.000Z").2.1 1) ∧
    (∀ t : HomeState, (resetForm t).category = "All") ∧
    (demoCreateState.editingId = none →
      (saveJournal demoCreateState demoDB2 (some 1) "2024-06-01T00:00:00.000Z").2.1.journals.getLast? =
        some ⟨demoDB2.nextJournalId, 1, demoCreateState.image.getD "",
          jsTrim demoCreateState.description, "2024-06-01T00:00:00.000Z",
          demoCreateState.category⟩) :=
  saveJournal_resets_shared_category demoCreateState demoDB2 1 "2024-06-01T00:00:00.000Z"
    (by decide) (by decide)
